import Mathlib

/-!
Verification development for the vector-pen repository (src/app.js,
src/pinch-zoom.js): a shallow embedding of the VectorPen stroke-capture
state machine and the PinchZoom gesture engine, with theorems settling the
frozen claims about the natural-language specification.

Modelling conventions:
* JS numbers are embedded as `ℚ` (all arithmetic in the claims is exact).
* SVG path-data strings (`"M x y Q cx cy, ex ey … L x y"`) are embedded
  structurally as lists of `PathCmd`; the empty string is the empty list.
* `Math.sqrt` is a host primitive; the machines are parameterised by a
  function `sqrtQ : ℚ → ℚ` standing for it.  Concrete runs instantiate it
  with `sqrtQ0`, which agrees with the real square root on the perfect
  squares those runs evaluate it at.
* DOM element identity is an opaque `Nat` handle; `getBoundingClientRect`
  and `element.id` are host inputs, supplied as environment functions.
* `Date.now()` is modelled by the index of the event being processed
  (distinct events get distinct timestamps).
-/

namespace VectorPenSpec

/-- A point `{x, y}` in container-local coordinates. -/
structure Pt where
  x : ℚ
  y : ℚ
deriving DecidableEq, Repr, Inhabited

/-- One command of an SVG path-data string: `M x y`, `Q cx cy, ex ey`
or `L x y`.  The string built by `_generatePathData` is embedded as a
list of these commands. -/
inductive PathCmd where
  | move (p : Pt)
  | quad (c : Pt) (e : Pt)
  | line (p : Pt)
deriving DecidableEq, Repr

/-- Midpoint of two points, as computed inline in `_generatePathData`
(`c = (points[i].x + points[i+1].x) / 2`, same for `y`). -/
def midPt (p q : Pt) : Pt := ⟨(p.x + q.x) / 2, (p.y + q.y) / 2⟩

/-- The `for (let i = 1; i < points.length - 1; i++)` loop of
`_generatePathData`, which appends ` Q points[i], mid(points[i],points[i+1])`
for each interior index, translated as pairwise recursion over the list of
points starting at index 1. -/
def quadSegs : List Pt → List PathCmd
  | p :: q :: rest => PathCmd.quad p (midPt p q) :: quadSegs (q :: rest)
  | _ => []

/-- Embeds `_generatePathData(points)` (src/app.js lines 635-651): returns the
empty string (here `[]`) for fewer than 2 points; otherwise
`M points[0]`, then the quadratic-smoothing loop over interior points,
then `L points[last]`. -/
def generatePathData : List Pt → List PathCmd
  | [] => []
  | [_] => []
  | p :: q :: rest =>
      PathCmd.move p ::
        (quadSegs (q :: rest) ++ [PathCmd.line ((q :: rest).getLast (List.cons_ne_nil q rest))])

/-! ### Host primitives -/

/-- Fuel-driven integer square root (binary recursion on `n / 4`).  Used only
to build `sqrtQ0`, a concrete stand-in for the host's `Math.sqrt`. -/
def isqrtFuel : Nat → Nat → Nat
  | 0, _ => 0
  | fuel + 1, n =>
      if n = 0 then 0 else
      let r := 2 * isqrtFuel fuel (n / 4)
      if (r + 1) * (r + 1) ≤ n then r + 1 else r

/-- Integer square root (exact on perfect squares). -/
def isqrt (n : Nat) : Nat := isqrtFuel n n

/-- A concrete instance of the host's `Math.sqrt`, exact on rationals whose
numerator and denominator are perfect squares — which covers every input the
concrete runs below evaluate it at. -/
def sqrtQ0 (q : ℚ) : ℚ := (isqrt q.num.toNat : ℚ) / (isqrt q.den : ℚ)

/-! ### SVG render-tree model

The `.vector-pen-layer` SVG of an attached container is modelled by
`ElemSvg`: its `<defs>` (a list of `<mask>` resources), the `mask`
attribute of the `.drawing-group` `<g>`, and that group's children.
`url(#id)` mask references are stored as the bare id. -/

mutual
/-- An SVG node as created by VectorPen: `<rect>` (only ever inside masks,
with a fill), `<path>` (class, stroke colour, stroke width, path data), or
`<g>` (optional `mask` attribute and children). -/
inductive SvgNode where
  | rectN (fill : String)
  | pathN (cls : String) (stroke : String) (strokeWidth : ℚ) (d : List PathCmd)
  | groupN (maskAttr : Option String) (children : SvgForest)
/-- A list of sibling SVG nodes (a separate inductive so that all tree
functions are mutual-structural and kernel-reducible). -/
inductive SvgForest where
  | nil
  | cons (n : SvgNode) (rest : SvgForest)
end

/-- A `<mask>` element inside `<defs>`: its `id` and children. -/
structure MaskDef where
  id : String
  children : SvgForest

/-- The `.vector-pen-layer` SVG of one attached container. -/
structure ElemSvg where
  defs : List MaskDef
  groupMaskAttr : Option String
  groupChildren : SvgForest

def forestAppend : SvgForest → SvgForest → SvgForest
  | .nil, t => t
  | .cons n rest, t => .cons n (forestAppend rest t)

mutual
/-- Embeds `querySelector('.cls')` restricted to one node: first `<path>` with the
given class, in document order; returns its (stroke, strokeWidth, d). -/
def nodeFindPath (cls : String) : SvgNode → Option (String × ℚ × List PathCmd)
  | .rectN _ => none
  | .pathN c stroke w d => if c = cls then some (stroke, w, d) else none
  | .groupN _ children => forestFindPath cls children
def forestFindPath (cls : String) : SvgForest → Option (String × ℚ × List PathCmd)
  | .nil => none
  | .cons n rest =>
      match nodeFindPath cls n with
      | some r => some r
      | none => forestFindPath cls rest
end

mutual
/-- Remove the first `<path>` with the given class from a node's subtree
(`element.remove()` after a `querySelector`); the `Bool` reports success. -/
def nodeRemovePath (cls : String) : SvgNode → SvgNode × Bool
  | .rectN f => (.rectN f, false)
  | .pathN c stroke w d => (.pathN c stroke w d, false)
  | .groupN m children =>
      let r := forestRemovePath cls children
      (.groupN m r.1, r.2)
def forestRemovePath (cls : String) : SvgForest → SvgForest × Bool
  | .nil => (.nil, false)
  | .cons (.pathN c stroke w d) rest =>
      if c = cls then (rest, true)
      else
        let r := forestRemovePath cls rest
        (.cons (.pathN c stroke w d) r.1, r.2)
  | .cons n rest =>
      let rn := nodeRemovePath cls n
      if rn.2 then (.cons rn.1 rest, true)
      else
        let rr := forestRemovePath cls rest
        (.cons rn.1 rr.1, rr.2)
end

mutual
/-- Embeds `setAttribute('d', …)` on the first `<path>` with the given class. -/
def nodeSetPathD (cls : String) (d : List PathCmd) : SvgNode → SvgNode × Bool
  | .rectN f => (.rectN f, false)
  | .pathN c stroke w d0 =>
      if c = cls then (.pathN c stroke w d, true) else (.pathN c stroke w d0, false)
  | .groupN m children =>
      let r := forestSetPathD cls d children
      (.groupN m r.1, r.2)
def forestSetPathD (cls : String) (d : List PathCmd) : SvgForest → SvgForest × Bool
  | .nil => (.nil, false)
  | .cons n rest =>
      let rn := nodeSetPathD cls d n
      if rn.2 then (.cons rn.1 rest, true)
      else
        let rr := forestSetPathD cls d rest
        (.cons rn.1 rr.1, rr.2)
end

def defsFindMask (id : String) : List MaskDef → Option MaskDef
  | [] => none
  | m :: rest => if m.id = id then some m else defsFindMask id rest

def defsRemoveMask (id : String) : List MaskDef → List MaskDef
  | [] => []
  | m :: rest => if m.id = id then rest else m :: defsRemoveMask id rest

def defsAppendToMask (id : String) (node : SvgNode) : List MaskDef → List MaskDef
  | [] => []
  | m :: rest =>
      if m.id = id then { m with children := forestAppend m.children (.cons node .nil) } :: rest
      else m :: defsAppendToMask id node rest

def defsFindPath (cls : String) : List MaskDef → Option (String × ℚ × List PathCmd)
  | [] => none
  | m :: rest =>
      match forestFindPath cls m.children with
      | some r => some r
      | none => defsFindPath cls rest

def defsRemovePathL (cls : String) : List MaskDef → List MaskDef × Bool
  | [] => ([], false)
  | m :: rest =>
      let rc := forestRemovePath cls m.children
      if rc.2 then ({ m with children := rc.1 } :: rest, true)
      else
        let rr := defsRemovePathL cls rest
        (m :: rr.1, rr.2)

def defsSetPathDL (cls : String) (d : List PathCmd) : List MaskDef → List MaskDef × Bool
  | [] => ([], false)
  | m :: rest =>
      let rc := forestSetPathD cls d m.children
      if rc.2 then ({ m with children := rc.1 } :: rest, true)
      else
        let rr := defsSetPathDL cls d rest
        (m :: rr.1, rr.2)

/-- Embeds `svg.querySelector('.cls')`: document order is `<defs>` first (it is the
SVG's first child), then the drawing group. -/
def svgFindPath (cls : String) (svg : ElemSvg) : Option (String × ℚ × List PathCmd) :=
  match defsFindPath cls svg.defs with
  | some r => some r
  | none => forestFindPath cls svg.groupChildren

def svgRemovePath (cls : String) (svg : ElemSvg) : ElemSvg :=
  let rd := defsRemovePathL cls svg.defs
  if rd.2 then { svg with defs := rd.1 }
  else { svg with groupChildren := (forestRemovePath cls svg.groupChildren).1 }

def svgSetPathD (cls : String) (d : List PathCmd) (svg : ElemSvg) : ElemSvg :=
  let rd := defsSetPathDL cls d svg.defs
  if rd.2 then { svg with defs := rd.1 }
  else { svg with groupChildren := (forestSetPathD cls d svg.groupChildren).1 }

/-! ### Dictionaries and small helpers

JS object dictionaries (`this.paths`, `this.drawingGroups`, `this.observers`)
and the per-element DOM map are embedded as association lists. -/

def lookupKey {κ α : Type} [DecidableEq κ] : List (κ × α) → κ → Option α
  | [], _ => none
  | kv :: rest, key => if kv.1 = key then some kv.2 else lookupKey rest key

/-- Embeds `obj[key] = v`: overwrite if present, append otherwise. -/
def setKey {κ α : Type} [DecidableEq κ] : List (κ × α) → κ → α → List (κ × α)
  | [], key, v => [(key, v)]
  | kv :: rest, key, v =>
      if kv.1 = key then (key, v) :: rest else kv :: setKey rest key v

/-- Embeds `delete obj[key]`. -/
def delKey {κ α : Type} [DecidableEq κ] : List (κ × α) → κ → List (κ × α)
  | [], _ => []
  | kv :: rest, key => if kv.1 = key then rest else kv :: delKey rest key

/-- Embeds `addEventListener` with an already-registered handler is a no-op, so
listener sets grow idempotently. -/
def insertOnce (l : List Nat) (e : Nat) : List Nat :=
  if l.contains e then l else l ++ [e]

/-- Embeds `removeEventListener`: drop `e` from a listener set. -/
def removeAll (l : List Nat) (e : Nat) : List Nat :=
  l.filter (fun x => x != e)

/-- Embeds `Array.prototype.indexOf`: `-1` when absent. -/
def indexOfI : List Nat → Nat → Int
  | [], _ => -1
  | x :: rest, e =>
      if x = e then 0 else
      let r := indexOfI rest e
      if r = -1 then -1 else r + 1

/-- Embeds `indexOf` as an `Option`, for sites that guard on `index === -1`. -/
def indexOfN : List Nat → Nat → Option Nat
  | [], _ => none
  | x :: rest, e => if x = e then some 0 else (indexOfN rest e).map (· + 1)

/-! ### VectorPen options and state -/

/-- The two tools. -/
inductive Tool where
  | pen
  | eraser
deriving DecidableEq, Repr

/-- A committed stroke, as pushed by `_finalizeStroke`:
`{type: this.activeTool, pathData, points: [...this.points]}`.  `type` is an
`Option` because `this.activeTool` can be `null` at commit time. -/
structure StrokeRecord where
  type : Option Tool
  pathData : List PathCmd
  points : List Pt
deriving DecidableEq, Repr

/-- JS `x || d` for numeric option fields (`0` is falsy). -/
def jsOrQ (v : Option ℚ) (d : ℚ) : ℚ :=
  match v with
  | none => d
  | some x => if x = 0 then d else x

/-- JS `x || d` for string option fields (`''` is falsy). -/
def jsOrS (v : Option String) (d : String) : String :=
  match v with
  | none => d
  | some x => if x = "" then d else x

/-- The drawing-related options resolved by the VectorPen constructor
(src/app.js lines 21-31; toolbar options are out of scope). -/
structure VPOptions where
  strokeWidth : ℚ
  strokeColor : String
  eraserWidth : ℚ
  minDistance : ℚ

/-- Constructor option resolution: `options.strokeWidth || 2`, etc. -/
def vpResolveOptions (strokeWidth? : Option ℚ) (strokeColor? : Option String)
    (eraserWidth? : Option ℚ) (minDistance? : Option ℚ) : VPOptions :=
  { strokeWidth := jsOrQ strokeWidth? 2
    strokeColor := jsOrS strokeColor? "#000000"
    eraserWidth := jsOrQ eraserWidth? 40
    minDistance := jsOrQ minDistance? 2 }

/-- Options of `new VectorPen({})`. -/
def defaultVPOptions : VPOptions := vpResolveOptions none none none none

/-- Host environment: container layout (`getBoundingClientRect().left/top`),
DOM ids (`element.id`, `none` for absent or empty), and `Math.sqrt`. -/
structure VPEnv where
  rectLeft : Nat → ℚ
  rectTop : Nat → ℚ
  domId : Nat → Option String
  sqrtQ : ℚ → ℚ

/-- The whole mutable state of one VectorPen instance plus the DOM it owns.
`hasPointerDown` / `hasMoveUp` model which elements currently carry the
`pointerdown` resp. `pointermove`/`pointerup`/`pointercancel`/`pointerleave`
listeners; `doms` maps an element to its `.vector-pen-layer` SVG (present
exactly while the layer is in the document).  `errors` records uncaught
exceptions thrown by handlers. -/
structure VPState where
  options : VPOptions
  elements : List Nat
  activeElement : Option Nat
  isDrawing : Bool
  activeTool : Option Tool
  points : List Pt
  activePointerId : Option Nat
  touchCount : Nat
  paths : List (String × List StrokeRecord)
  drawingGroups : List (String × Nat)
  observers : List (String × Unit)
  doms : List (Nat × ElemSvg)
  hasPointerDown : List Nat
  hasMoveUp : List Nat
  errors : List String

/-- Freshly constructed VectorPen (no containers attached). -/
def initVP (opts : VPOptions) : VPState :=
  { options := opts, elements := [], activeElement := none, isDrawing := false,
    activeTool := none, points := [], activePointerId := none, touchCount := 0,
    paths := [], drawingGroups := [], observers := [], doms := [],
    hasPointerDown := [], hasMoveUp := [], errors := [] }

/-- Embeds `element.id || 'vector-pen-' + idxPlus1` — the storage key derived at
each call site (the sites disagree on which index to use, which is why the
index is a parameter). -/
def elemKey (domId? : Option String) (idxPlus1 : Int) : String :=
  match domId? with
  | some s => s
  | none => "vector-pen-" ++ toString idxPlus1

/-! ### VectorPen handlers (src/app.js) -/

/-- Embeds `cancelDrawing` (lines 374-396): discard the in-progress stroke without
committing; remove the `.temp-path` preview; reset drawing state; detach the
move/up listeners from the active element. -/
def cancelDrawing (s : VPState) : VPState :=
  match s.activeElement with
  | none => s
  | some ae =>
      if !s.isDrawing then s else
      let doms' :=
        match lookupKey s.doms ae with
        | none => s.doms
        | some svg => setKey s.doms ae (svgRemovePath "temp-path" svg)
      { s with doms := doms', isDrawing := false, points := [], activePointerId := none,
               hasMoveUp := removeAll s.hasMoveUp ae }

/-- Embeds `handleTouchStart` (lines 342-349): track the touch count; a second
touch arriving while drawing cancels the stroke. -/
def vpHandleTouchStart (s : VPState) (touches : Nat) : VPState :=
  let s1 := { s with touchCount := touches }
  if touches > 1 && s1.isDrawing then cancelDrawing s1 else s1

/-- Embeds `handleTouchEnd` (lines 355-357). -/
def vpHandleTouchEnd (s : VPState) (touches : Nat) : VPState :=
  { s with touchCount := touches }

/-- Embeds `handleTouchCancel` (lines 363-368). -/
def vpHandleTouchCancel (s : VPState) (touches : Nat) : VPState :=
  let s1 := { s with touchCount := touches }
  if s1.isDrawing then cancelDrawing s1 else s1

/-- Embeds `handlePointerDown` (lines 402-432).  Note the only guard is
`this.touchCount > 1`: there is no check of `isDrawing` or of the current
`activePointerId`, and `activeElement` is overwritten before the SVG check. -/
def handlePointerDown (env : VPEnv) (s : VPState) (target pid : Nat) (cx cy : ℚ) : VPState :=
  if s.touchCount > 1 then s else
  let s1 := { s with activeElement := some target }
  match lookupKey s1.doms target with
  | none => s1
  | some _ =>
      let x := cx - env.rectLeft target
      let y := cy - env.rectTop target
      { s1 with activePointerId := some pid, isDrawing := true, points := [⟨x, y⟩],
                hasMoveUp := insertOnce s1.hasMoveUp target }

/-- The eraser branch of `_updateStroke` (lines 527-554): lazily create the
`#temp-eraser-mask` (white rect) in `<defs>` and gate the drawing group with
it, lazily create the `.temp-eraser-path` inside that mask, then write the
current smoothed path into its `d`.  `ae` is the active element (whose SVG
is queried), `h` the element owning the drawing group found under the
storage key (these coincide unless storage keys have drifted). -/
def updateStrokeEraser (s : VPState) (ae h : Nat) : VPState :=
  match lookupKey s.doms ae with
  | none => s
  | some svg =>
      let d := generatePathData s.points
      let s1 :=
        if (defsFindMask "temp-eraser-mask" svg.defs).isSome then s
        else
          let svgA := { svg with
            defs := svg.defs ++ [⟨"temp-eraser-mask", .cons (.rectN "white") .nil⟩] }
          let sA := { s with doms := setKey s.doms ae svgA }
          match lookupKey sA.doms h with
          | none => sA
          | some svgH =>
              { sA with doms := setKey sA.doms h { svgH with groupMaskAttr := some "temp-eraser-mask" } }
      let s2 :=
        match lookupKey s1.doms ae with
        | none => s1
        | some svg1 =>
            if (svgFindPath "temp-eraser-path" svg1).isSome then s1
            else
              let tp := SvgNode.pathN "temp-eraser-path" "black" s.options.eraserWidth []
              let svg1' := { svg1 with defs := defsAppendToMask "temp-eraser-mask" tp svg1.defs }
              { s1 with doms := setKey s1.doms ae svg1' }
      match lookupKey s2.doms ae with
      | none => s2
      | some svg2 => { s2 with doms := setKey s2.doms ae (svgSetPathD "temp-eraser-path" d svg2) }

/-- Embeds `_updateStroke` (lines 499-555): re-render the live preview for the
active tool. -/
def updateStroke (env : VPEnv) (s : VPState) : VPState :=
  match s.activeElement with
  | none => s
  | some ae =>
      if s.points.length < 2 then s else
      match lookupKey s.doms ae with
      | none => s
      | some svg =>
          let key := elemKey (env.domId ae) (indexOfI s.elements ae + 1)
          match lookupKey s.drawingGroups key with
          | none => s
          | some h =>
              match s.activeTool with
              | some Tool.pen =>
                  let d := generatePathData s.points
                  if (svgFindPath "temp-path" svg).isSome then
                    { s with doms := setKey s.doms ae (svgSetPathD "temp-path" d svg) }
                  else
                    match lookupKey s.doms h with
                    | none => s
                    | some svgH =>
                        let tp := SvgNode.pathN "temp-path" s.options.strokeColor s.options.strokeWidth d
                        let svgH' := { svgH with groupChildren := forestAppend svgH.groupChildren (.cons tp .nil) }
                        { s with doms := setKey s.doms h svgH' }
              | some Tool.eraser => updateStrokeEraser s ae h
              | none => s

/-- Embeds `handlePointerMove` (lines 438-466): owner-pointer guard, multi-touch
cancellation, distance-thresholded point append plus preview re-render. -/
def handlePointerMove (env : VPEnv) (s : VPState) (pid : Nat) (cx cy : ℚ) : VPState :=
  if some pid ≠ s.activePointerId then s
  else if s.touchCount > 1 then cancelDrawing s
  else if !s.isDrawing then s
  else
    match s.activeElement with
    | none => s
    | some ae =>
        let x := cx - env.rectLeft ae
        let y := cy - env.rectTop ae
        match s.points.getLast? with
        | none => s
        | some lp =>
            let dx := x - lp.x
            let dy := y - lp.y
            let distance := env.sqrtQ (dx * dx + dy * dy)
            if s.options.minDistance ≤ distance then
              updateStroke env { s with points := s.points ++ [⟨x, y⟩] }
            else s

/-- Embeds `drawingGroup.appendChild(node)` for the group stored under element `h`. -/
def appendToDrawingGroup (s : VPState) (h : Nat) (node : SvgNode) : VPState :=
  match lookupKey s.doms h with
  | none => s
  | some svgH =>
      let svgH' := { svgH with groupChildren := forestAppend svgH.groupChildren (.cons node .nil) }
      { s with doms := setKey s.doms h svgH' }

/-- The eraser branch of `_finalizeStroke` (lines 584-615): build the
permanent mask `eraser-mask-<Date.now()>` from a white rect plus the temp
eraser path (moved in, class reset to `''`), wrap all current drawing-group
children into one new group gated by that mask, then drop the temporary
mask and the group's temporary `mask` attribute. -/
def eraserWrap (s : VPState) (ae h : Nat) (now : Nat) : VPState :=
  match lookupKey s.doms ae with
  | none => s
  | some svgA =>
      let tempPath? := svgFindPath "temp-eraser-path" svgA
      let permId := "eraser-mask-" ++ toString now
      let permChildren : SvgForest :=
        match tempPath? with
        | none => .cons (.rectN "white") .nil
        | some (stroke, w, d) => .cons (.rectN "white") (.cons (.pathN "" stroke w d) .nil)
      let svgA1 :=
        match tempPath? with
        | none => svgA
        | some _ => svgRemovePath "temp-eraser-path" svgA
      let svgA2 := { svgA1 with defs := svgA1.defs ++ [⟨permId, permChildren⟩] }
      let s1 := { s with doms := setKey s.doms ae svgA2 }
      match lookupKey s1.doms h with
      | none => s1
      | some svgH =>
          let svgH' := { svgH with
            groupChildren := .cons (.groupN (some permId) svgH.groupChildren) .nil,
            groupMaskAttr := none }
          let s2 := { s1 with doms := setKey s1.doms h svgH' }
          match lookupKey s2.doms ae with
          | none => s2
          | some svgA3 =>
              let svgA3' := { svgA3 with defs := defsRemoveMask "temp-eraser-mask" svgA3.defs }
              { s2 with doms := setKey s2.doms ae svgA3' }

/-- Embeds `this.paths[id].push(record)`: no-op when `paths[id]` is undefined
(the JS would throw there; unreachable while storage keys are stable). -/
def pushRecord (s : VPState) (key : String) (rec : StrokeRecord) : VPState :=
  match lookupKey s.paths key with
  | none => s
  | some recs => { s with paths := setKey s.paths key (recs ++ [rec]) }

/-- Embeds `svg.querySelector('.cls')` + `.remove()` on the active element's SVG. -/
def removeTempPathFrom (s : VPState) (ae : Nat) (cls : String) : VPState :=
  match lookupKey s.doms ae with
  | none => s
  | some svgX => { s with doms := setKey s.doms ae (svgRemovePath cls svgX) }

/-- Embeds `_finalizeStroke` (lines 561-629).  The `// Pencil tool` block appending
a pen-styled `vector-pen-stroke` path runs unconditionally — for the eraser
too; the eraser branch then wraps everything (that path included) into the
new masked group; finally the record is pushed and temp previews removed. -/
def finalizeStroke (env : VPEnv) (s : VPState) (now : Nat) : VPState :=
  match s.activeElement with
  | none => s
  | some ae =>
      match lookupKey s.doms ae with
      | none => s
      | some _ =>
          let key := elemKey (env.domId ae) (indexOfI s.elements ae + 1)
          let pathData := generatePathData s.points
          match lookupKey s.drawingGroups key with
          | none => s
          | some h =>
              let s1 := appendToDrawingGroup s h
                (.pathN "vector-pen-stroke" s.options.strokeColor s.options.strokeWidth pathData)
              let s2 := if s.activeTool = some Tool.eraser then eraserWrap s1 ae h now else s1
              let s3 := pushRecord s2 key ⟨s.activeTool, pathData, s.points⟩
              removeTempPathFrom (removeTempPathFrom s3 ae "temp-path") ae "temp-eraser-path"

/-- Embeds `handlePointerUp` (lines 472-493): owner-pointer guard; commit when more
than one point was accumulated; always clear the drawing state and detach
the move/up listeners. -/
def handlePointerUp (env : VPEnv) (s : VPState) (pid : Nat) (now : Nat) : VPState :=
  if some pid ≠ s.activePointerId then s
  else if !s.isDrawing then s
  else
    match s.activeElement with
    | none => s
    | some ae =>
        let s1 := if s.points.length > 1 then finalizeStroke env s now else s
        { s1 with isDrawing := false, points := [], activePointerId := none,
                  hasMoveUp := removeAll s1.hasMoveUp ae }

/-- Embeds `deactivateTool` (lines 314-336): remove the `pointerdown` listener from
every currently attached element (detached elements keep theirs). -/
def deactivateTool (s : VPState) : VPState :=
  match s.activeTool with
  | none => s
  | some _ =>
      { s with hasPointerDown := s.hasPointerDown.filter (fun e => !s.elements.contains e),
               activeTool := none }

/-- Embeds `activateTool` (lines 282-309): toggle semantics; on activation add the
`pointerdown` listener to every currently attached element. -/
def vpActivateTool (s : VPState) (t : Tool) : VPState :=
  if s.activeTool = some t then deactivateTool s
  else
    let s1 := deactivateTool s
    let s2 := { s1 with activeTool := some t }
    { s2 with hasPointerDown := s2.elements.foldl insertOnce s2.hasPointerDown }

/-- Embeds `_attachToElement` (lines 141-221): idempotent; creates the SVG layer
(empty `<defs>` plus empty drawing group), registers touch listeners, and
stores `paths`/`drawingGroups`/`observers` under the key derived from
`element.id || 'vector-pen-' + this.elements.length` (length measured after
the push). -/
def attachToElement (env : VPEnv) (s : VPState) (e : Nat) : VPState :=
  if s.elements.contains e then s else
  let elements' := s.elements ++ [e]
  let key := elemKey (env.domId e) (elements'.length : Int)
  { s with doms := setKey s.doms e ⟨[], none, .nil⟩,
           elements := elements',
           paths := setKey s.paths key [],
           drawingGroups := setKey s.drawingGroups key e,
           observers := setKey s.observers key () }

/-- Embeds `_detachFromElement` (lines 242-276): no-op when unattached; removes the
SVG layer and touch listeners, then deletes the observer, `paths` and
`drawingGroups` entries under `element.id || 'vector-pen-' + (index + 1)`
with `index` the position in `this.elements` before the splice.  The
`pointerdown` listener (if any) is not removed. -/
def detachFromElement (env : VPEnv) (s : VPState) (e : Nat) : VPState :=
  match indexOfN s.elements e with
  | none => s
  | some idx =>
      let key := elemKey (env.domId e) ((idx : Int) + 1)
      { s with doms := delKey s.doms e,
               observers := delKey s.observers key,
               elements := s.elements.eraseIdx idx,
               paths := delKey s.paths key,
               drawingGroups := delKey s.drawingGroups key }

/-- Embeds `_clearElement` (lines 697-713): early return when the element has no
`.vector-pen-layer`; otherwise empty the drawing group found under
`element.id || 'vector-pen-' + (indexOf + 1)` and reset the stored records.
When the key has drifted (`drawingGroups[id]` undefined) the JS throws a
`TypeError` at `drawingGroup.lastChild`; the thrown error is recorded. -/
def clearElement (env : VPEnv) (s : VPState) (e : Nat) : VPState :=
  match lookupKey s.doms e with
  | none => s
  | some _ =>
      let key := elemKey (env.domId e) (indexOfI s.elements e + 1)
      match lookupKey s.drawingGroups key with
      | none =>
          { s with errors := s.errors ++
              ["TypeError: undefined drawingGroup in _clearElement"] }
      | some h =>
          let s1 :=
            match lookupKey s.doms h with
            | none => s
            | some svgH => { s with doms := setKey s.doms h { svgH with groupChildren := .nil } }
          match lookupKey s1.paths key with
          | none => s1
          | some _ => { s1 with paths := setKey s1.paths key [] }

/-! ### Event dispatch and runs -/

/-- Raw input events and public API calls driving one VectorPen instance.
Pointer events carry the target element, the pointer identity and client
coordinates; touch events carry `event.touches.length`. -/
inductive VPEvent where
  | pointerDown (target pid : Nat) (cx cy : ℚ)
  | pointerMove (target pid : Nat) (cx cy : ℚ)
  | pointerUp (target pid : Nat)
  | touchStart (target : Nat) (touches : Nat)
  | touchEnd (target : Nat) (touches : Nat)
  | touchCancel (target : Nat) (touches : Nat)
  | toolClick (t : Tool)
  | clearOn (target : Nat)
  | attachOn (target : Nat)
  | detachOn (target : Nat)

/-- Dispatch one event: a handler runs only if the corresponding listener is
currently registered on the target (pointerdown per `activateTool`, move/up
per `handlePointerDown`, touch tracking per `attach`).  `now` models
`Date.now()` at this event. -/
def vpStep (env : VPEnv) (s : VPState) (now : Nat) : VPEvent → VPState
  | .pointerDown e pid cx cy =>
      if s.hasPointerDown.contains e then handlePointerDown env s e pid cx cy else s
  | .pointerMove e pid cx cy =>
      if s.hasMoveUp.contains e then handlePointerMove env s pid cx cy else s
  | .pointerUp e pid =>
      if s.hasMoveUp.contains e then handlePointerUp env s pid now else s
  | .touchStart e n => if s.elements.contains e then vpHandleTouchStart s n else s
  | .touchEnd e n => if s.elements.contains e then vpHandleTouchEnd s n else s
  | .touchCancel e n => if s.elements.contains e then vpHandleTouchCancel s n else s
  | .toolClick t => vpActivateTool s t
  | .clearOn e => clearElement env s e
  | .attachOn e => attachToElement env s e
  | .detachOn e => detachFromElement env s e

def vpRunAux (env : VPEnv) : VPState → Nat → List VPEvent → VPState
  | s, _, [] => s
  | s, now, ev :: rest => vpRunAux env (vpStep env s now ev) (now + 1) rest

/-- Run an event sequence from a state, timestamping events `0, 1, 2, …`
(models `Date.now()` under the assumption that successive events fall in
distinct milliseconds). -/
def vpRun (env : VPEnv) (s : VPState) (evs : List VPEvent) : VPState :=
  vpRunAux env s 0 evs

/-- Concrete host environment for the scenario runs: containers at the
viewport origin, element `e` carrying DOM id `board-<e>`, `Math.sqrt`
instantiated by `sqrtQ0`. -/
def envNamed : VPEnv :=
  { rectLeft := fun _ => 0, rectTop := fun _ => 0,
    domId := fun e => some ("board-" ++ toString e), sqrtQ := sqrtQ0 }

/-- Host environment whose containers have no DOM id (`element.id` empty),
forcing the index-derived fallback storage keys. -/
def envAnon : VPEnv :=
  { rectLeft := fun _ => 0, rectTop := fun _ => 0,
    domId := fun _ => none, sqrtQ := sqrtQ0 }

/-! ### Scenario runs -/

/-- C2 scenario: pen tool active, pointer 0 down at (10,10), move to (15,10)
(distance 5 ≥ default minDistance 2), up at (15,10). -/
def c2events : List VPEvent :=
  [.attachOn 1, .toolClick Tool.pen, .pointerDown 1 0 10 10,
   .pointerMove 1 0 15 10, .pointerUp 1 0]

/-- The single record the C2 scenario commits. -/
def c2record : StrokeRecord :=
  ⟨some Tool.pen, [PathCmd.move ⟨10, 10⟩, PathCmd.line ⟨15, 10⟩], [⟨10, 10⟩, ⟨15, 10⟩]⟩

/-- State reached after: attach container 1, activate pen, pointer 0 down at
(10,10) — a stroke is in progress owned by pointer 0. -/
def c4Drawing : VPState :=
  vpRun envNamed (initVP defaultVPOptions)
    [.attachOn 1, .toolClick Tool.pen, .pointerDown 1 0 10 10]

/-- The same state after a pointer-down from a different, non-touch pointer
(pointer 7, `touchCount = 0`). -/
def c4AfterSecondDown : VPState :=
  vpStep envNamed c4Drawing 3 (.pointerDown 1 7 20 20)

/-- C1 run options: strokeWidth 50, eraserWidth 10 — pen strokes wider than
the eraser's mask hole. -/
def c1opts : VPOptions := vpResolveOptions (some 50) none (some 10) none

/-- C1 run: commit one pen stroke (0,0)→(60,0), then two eraser strokes
(0,0)→(30,0) and (0,50)→(30,50). -/
def c1events : List VPEvent :=
  [.attachOn 1, .toolClick Tool.pen, .pointerDown 1 0 0 0, .pointerMove 1 0 60 0,
   .pointerUp 1 0, .toolClick Tool.eraser, .pointerDown 1 0 0 0, .pointerMove 1 0 30 0,
   .pointerUp 1 0, .pointerDown 1 0 0 50, .pointerMove 1 0 30 50, .pointerUp 1 0]

/-- Trajectory of the first erase stroke. -/
def c1dE1 : List PathCmd := [PathCmd.move ⟨0, 0⟩, PathCmd.line ⟨30, 0⟩]

/-- Trajectory of the second erase stroke. -/
def c1dE2 : List PathCmd := [PathCmd.move ⟨0, 50⟩, PathCmd.line ⟨30, 50⟩]

/-- The committed pen stroke path element. -/
def c1penPath : SvgNode :=
  .pathN "vector-pen-stroke" "#000000" 50 [PathCmd.move ⟨0, 0⟩, PathCmd.line ⟨60, 0⟩]

/-- Children of a permanent eraser mask: white background rect plus the
erase path painted black at the eraser width (10), class reset to `''`. -/
def c1maskForest (d : List PathCmd) : SvgForest :=
  .cons (.rectN "white") (.cons (.pathN "" "black" 10 d) .nil)

/-- The pen-styled path (stroke colour `#000000`, width `strokeWidth` = 50)
that `_finalizeStroke` appends along erase trajectory `d` even on an eraser
commit — the `// Pencil tool` block runs unconditionally. -/
def c1spur (d : List PathCmd) : SvgNode := .pathN "vector-pen-stroke" "#000000" 50 d

/-- The first five C1 events: attach, activate pen, commit the pen stroke. -/
def c1l1 : List VPEvent :=
  [.attachOn 1, .toolClick Tool.pen, .pointerDown 1 0 0 0, .pointerMove 1 0 60 0,
   .pointerUp 1 0]

/-- The next four C1 events: activate the eraser, commit the first erase. -/
def c1l2 : List VPEvent :=
  [.toolClick Tool.eraser, .pointerDown 1 0 0 0, .pointerMove 1 0 30 0, .pointerUp 1 0]

/-- The last three C1 events: commit the second erase. -/
def c1l3 : List VPEvent := [.pointerDown 1 0 0 50, .pointerMove 1 0 30 50, .pointerUp 1 0]

/-- The state after `c1l1` (pen stroke committed), spelled out so that the
12-event run can be evaluated in stages. -/
def c1S5 : VPState :=
{ options := { strokeWidth := 50, strokeColor := "#000000", eraserWidth := 10, minDistance := 2 },
  elements := [1],
  activeElement := some 1,
  isDrawing := false,
  activeTool := some (VectorPenSpec.Tool.pen),
  points := [],
  activePointerId := none,
  touchCount := 0,
  paths := [("board-1",
             [{ type := some (VectorPenSpec.Tool.pen),
                pathData := [VectorPenSpec.PathCmd.move { x := 0, y := 0 },
                             VectorPenSpec.PathCmd.line { x := 60, y := 0 }],
                points := [{ x := 0, y := 0 }, { x := 60, y := 0 }] }])],
  drawingGroups := [("board-1", 1)],
  observers := [("board-1", ())],
  doms := [(1,
            { defs := [],
              groupMaskAttr := none,
              groupChildren := VectorPenSpec.SvgForest.cons
                                 (VectorPenSpec.SvgNode.pathN
                                   "vector-pen-stroke"
                                   "#000000"
                                   50
                                   [VectorPenSpec.PathCmd.move { x := 0, y := 0 },
                                    VectorPenSpec.PathCmd.line { x := 60, y := 0 }])
                                 (VectorPenSpec.SvgForest.nil) })],
  hasPointerDown := [1],
  hasMoveUp := [],
  errors := [] }

/-- The state after `c1l1 ++ c1l2` (first eraser commit done). -/
def c1S9 : VPState :=
{ options := { strokeWidth := 50, strokeColor := "#000000", eraserWidth := 10, minDistance := 2 },
  elements := [1],
  activeElement := some 1,
  isDrawing := false,
  activeTool := some (VectorPenSpec.Tool.eraser),
  points := [],
  activePointerId := none,
  touchCount := 0,
  paths := [("board-1",
             [{ type := some (VectorPenSpec.Tool.pen),
                pathData := [VectorPenSpec.PathCmd.move { x := 0, y := 0 },
                             VectorPenSpec.PathCmd.line { x := 60, y := 0 }],
                points := [{ x := 0, y := 0 }, { x := 60, y := 0 }] },
              { type := some (VectorPenSpec.Tool.eraser),
                pathData := [VectorPenSpec.PathCmd.move { x := 0, y := 0 },
                             VectorPenSpec.PathCmd.line { x := 30, y := 0 }],
                points := [{ x := 0, y := 0 }, { x := 30, y := 0 }] }])],
  drawingGroups := [("board-1", 1)],
  observers := [("board-1", ())],
  doms := [(1,
            { defs := [{ id := "eraser-mask-8",
                         children := VectorPenSpec.SvgForest.cons
                                       (VectorPenSpec.SvgNode.rectN "white")
                                       (VectorPenSpec.SvgForest.cons
                                         (VectorPenSpec.SvgNode.pathN
                                           ""
                                           "black"
                                           10
                                           [VectorPenSpec.PathCmd.move { x := 0, y := 0 },
                                            VectorPenSpec.PathCmd.line { x := 30, y := 0 }])
                                         (VectorPenSpec.SvgForest.nil)) }],
              groupMaskAttr := none,
              groupChildren := VectorPenSpec.SvgForest.cons
                                 (VectorPenSpec.SvgNode.groupN
                                   (some "eraser-mask-8")
                                   (VectorPenSpec.SvgForest.cons
                                     (VectorPenSpec.SvgNode.pathN
                                       "vector-pen-stroke"
                                       "#000000"
                                       50
                                       [VectorPenSpec.PathCmd.move { x := 0, y := 0 },
                                        VectorPenSpec.PathCmd.line { x := 60, y := 0 }])
                                     (VectorPenSpec.SvgForest.cons
                                       (VectorPenSpec.SvgNode.pathN
                                         "vector-pen-stroke"
                                         "#000000"
                                         50
                                         [VectorPenSpec.PathCmd.move { x := 0, y := 0 },
                                          VectorPenSpec.PathCmd.line { x := 30, y := 0 }])
                                       (VectorPenSpec.SvgForest.nil))))
                                 (VectorPenSpec.SvgForest.nil) })],
  hasPointerDown := [1],
  hasMoveUp := [],
  errors := [] }

/-- Interleaving for C9: two id-less containers, the first detached, then
`clear` called on the second — which is still attached. -/
def c9mid : VPState :=
  vpRun envAnon (initVP defaultVPOptions) [.attachOn 1, .attachOn 2, .detachOn 1]

/-- The state after the `clear` call on container 2. -/
def c9final : VPState := vpStep envAnon c9mid 3 (.clearOn 2)

/-! ### The stored-records invariant (claim C10) -/

/-- A record is well-formed: at least 2 points, and a non-empty `pathData`
whose first command is a move (the string starts with `M `). -/
def goodRecord (r : StrokeRecord) : Prop :=
  2 ≤ r.points.length ∧ r.pathData ≠ [] ∧ ∃ p, r.pathData.head? = some (PathCmd.move p)

/-- Every record in every entry of a `paths` dictionary is well-formed. -/
def pathsListGood (l : List (String × List StrokeRecord)) : Prop :=
  ∀ kv ∈ l, ∀ r ∈ kv.2, goodRecord r

end VectorPenSpec

namespace PinchZoomSpec

open VectorPenSpec (lookupKey setKey sqrtQ0 jsOrQ)

/-! ### PinchZoom embedding (src/pinch-zoom.js) -/

/-- Gesture-engine options resolved by the PinchZoom constructor
(lines 5-14): numeric fields via `x || default`, boolean fields via
`x !== undefined ? x : default`. -/
structure PZOptions where
  minZoom : ℚ
  maxZoom : ℚ
  speedFactor : ℚ
  animationDuration : ℚ
  disablePan : Bool
  enablePresentation : Bool
deriving DecidableEq, Repr

def pzResolveOptions (minZoom? maxZoom? speedFactor? animationDuration? : Option ℚ)
    (disablePan? enablePresentation? : Option Bool) : PZOptions :=
  { minZoom := jsOrQ minZoom? (1 / 2)
    maxZoom := jsOrQ maxZoom? 3
    speedFactor := jsOrQ speedFactor? (1 / 500)
    animationDuration := jsOrQ animationDuration? 200
    disablePan := disablePan?.getD false
    enablePresentation := enablePresentation?.getD true }

/-- Options of `new PinchZoom({})`. -/
def defaultPZOptions : PZOptions := pzResolveOptions none none none none none none

/-- The per-element `elementState` record created in `_attachToElement`
(lines 75-83). -/
structure GState where
  scale : ℚ
  offsetX : ℚ
  offsetY : ℚ
  initialScale : ℚ
  initialOffsetX : ℚ
  initialOffsetY : ℚ
  isPresentation : Bool
deriving DecidableEq, Repr

def initGState : GState := ⟨1, 0, 0, 1, 0, 0, false⟩

/-- One entry of `event.touches`. -/
structure TouchPt where
  identifier : Nat
  clientX : ℚ
  clientY : ℚ
deriving DecidableEq, Repr

/-- One cached touch: identity plus element-relative position. -/
structure CachedTouch where
  id : Nat
  x : ℚ
  y : ℚ
deriving DecidableEq, Repr

/-- Embeds `this.touchCache` while a pinch is active (lines 191-213); reset to the
empty object (here `none`) on touch end. -/
structure TouchCache where
  touch1 : CachedTouch
  touch2 : CachedTouch
  initialDistance : ℚ
  initialMidX : ℚ
  initialMidY : ℚ
deriving DecidableEq, Repr

/-- The per-element `handlers` record stored into `attachedHandlers`
(lines 86-93).  It holds the five bound callbacks (represented by the
element handle they close over) and — crucially — no `state` field, so the
JS property access `handlers.state` yields `undefined` (`state? = none`). -/
structure HandlersRec where
  elem : Nat
  state? : Option GState
deriving DecidableEq, Repr

/-- Notifications dispatched on the container: `pinchzoom` (from every
`_applyTransform`) and `presentationmodechange` (from the toggle). -/
inductive PZNotif where
  | pinch (target : Nat) (scale offsetX offsetY : ℚ) (isPresentation : Bool)
  | presentation (target : Nat) (isPresentation : Bool)
deriving DecidableEq, Repr

/-- Host environment for the gesture engine. -/
structure PZEnv where
  rectLeft : Nat → ℚ
  rectTop : Nat → ℚ
  childCount : Nat → Nat
  sqrtQ : ℚ → ℚ

/-- The whole state of one PinchZoom instance.  `states` holds each attached
element's closure-captured `elementState`; `zoomKids` the number of children
carrying the `pinch-zoom-element` class; `escListener` whether the
constructor registered the document-level ESC handler. -/
structure PZState where
  options : PZOptions
  elements : List Nat
  states : List (Nat × GState)
  attachedHandlers : List (Nat × HandlersRec)
  touchCache : Option TouchCache
  zoomKids : List (Nat × Nat)
  notifications : List PZNotif
  warnings : List String
  errors : List String
  escListener : Bool

/-- Embeds `new PinchZoom(options)`: nothing attached; the ESC handler is added iff
`enablePresentation` (lines 33-35). -/
def initPZ (opts : PZOptions) : PZState :=
  { options := opts, elements := [], states := [], attachedHandlers := [],
    touchCache := none, zoomKids := [], notifications := [], warnings := [],
    errors := [], escListener := opts.enablePresentation }

/-- Embeds `_getDistance` (lines 519-521). -/
def pzDistance (env : PZEnv) (x1 y1 x2 y2 : ℚ) : ℚ :=
  env.sqrtQ ((x2 - x1) * (x2 - x1) + (y2 - y1) * (y2 - y1))

/-- Embeds `_applyTransform` (lines 405-427): no-op when the container holds no
`.pinch-zoom-element` children; otherwise set the transform on each child
and dispatch a `pinchzoom` event with the current scale/offset/presentation
values. -/
def applyTransform (s : PZState) (e : Nat) (st : GState) : PZState :=
  if (lookupKey s.zoomKids e).getD 0 = 0 then s
  else { s with notifications := s.notifications ++
          [.pinch e st.scale st.offsetX st.offsetY st.isPresentation] }

/-- Embeds `_attachToElement` (lines 58-117): idempotent; WARNS AND RETURNS when the
container has no children (`if (children.length === 0) { console.warn(…);
return; }`) — nothing is attached in that case; otherwise installs classes,
state, handlers, listeners, observer, and applies the initial transform. -/
def pzAttachToElement (env : PZEnv) (s : PZState) (e : Nat) : PZState :=
  if s.elements.contains e then s else
  if env.childCount e = 0 then
    { s with warnings := s.warnings ++ ["PinchZoom: Target element has no children to zoom"] }
  else
    let s1 := { s with
      states := setKey s.states e initGState,
      attachedHandlers := setKey s.attachedHandlers e ⟨e, none⟩,
      elements := s.elements ++ [e],
      zoomKids := setKey s.zoomKids e (env.childCount e) }
    applyTransform s1 e initGState

/-- Embeds `handleTouchStart` (lines 175-214): with two or more touches, snapshot
the baseline scale/offset into the element state and cache both touches'
identities, positions, initial distance and initial midpoint. -/
def pzHandleTouchStart (env : PZEnv) (s : PZState) (e : Nat) (touches : List TouchPt)
    (st : GState) : PZState :=
  match touches with
  | t1 :: t2 :: _ =>
      let st' := { st with initialScale := st.scale, initialOffsetX := st.offsetX,
                           initialOffsetY := st.offsetY }
      let c1 : CachedTouch := ⟨t1.identifier, t1.clientX - env.rectLeft e, t1.clientY - env.rectTop e⟩
      let c2 : CachedTouch := ⟨t2.identifier, t2.clientX - env.rectLeft e, t2.clientY - env.rectTop e⟩
      let cache : TouchCache :=
        { touch1 := c1, touch2 := c2,
          initialDistance := pzDistance env c1.x c1.y c2.x c2.y,
          initialMidX := (c1.x + c2.x) / 2, initialMidY := (c1.y + c2.y) / 2 }
      { s with states := setKey s.states e st', touchCache := some cache }
  | _ => s

/-- The body of the `for (const touch of touches)` identity-matching loop of
`handleTouchMove` (lines 231-241), one touch at a time: later matches
overwrite earlier ones; matching is by identity, never by index. -/
def matchLoop (env : PZEnv) (e : Nat) (cache : TouchCache) :
    List TouchPt → Option (ℚ × ℚ) × Option (ℚ × ℚ) → Option (ℚ × ℚ) × Option (ℚ × ℚ)
  | [], acc => acc
  | t :: rest, acc =>
      let x := t.clientX - env.rectLeft e
      let y := t.clientY - env.rectTop e
      matchLoop env e cache rest
        (if t.identifier = cache.touch1.id then (some (x, y), acc.2)
         else if t.identifier = cache.touch2.id then (acc.1, some (x, y))
         else acc)

/-- The whole matching loop, started from two unset slots. -/
def matchTouches (env : PZEnv) (e : Nat) (cache : TouchCache) (touches : List TouchPt) :
    Option (ℚ × ℚ) × Option (ℚ × ℚ) :=
  matchLoop env e cache touches (none, none)

/-- Embeds `handleTouchMove` (lines 220-280): guard on two touches; match both
cached identities (unmatched → return unchanged); new scale =
clamp(initialScale × currentDistance/initialDistance, minZoom, maxZoom);
when panning is enabled, offset = initialOffset + midpoint-delta / newScale;
apply the transform.  An empty cache (`this.touchCache.touch1` undefined)
makes the JS throw; the thrown error is recorded. -/
def pzHandleTouchMove (env : PZEnv) (s : PZState) (e : Nat) (touches : List TouchPt)
    (st : GState) : PZState :=
  if touches.length < 2 then s else
  match s.touchCache with
  | none => { s with errors := s.errors ++ ["TypeError: touchCache.touch1 is undefined"] }
  | some cache =>
      match matchTouches env e cache touches with
      | (some t1, some t2) =>
          let currentDistance := pzDistance env t1.1 t1.2 t2.1 t2.2
          let scaleFactor := currentDistance / cache.initialDistance
          let newScale := max s.options.minZoom (min s.options.maxZoom (st.initialScale * scaleFactor))
          let midX := (t1.1 + t2.1) / 2
          let midY := (t1.2 + t2.2) / 2
          let st1 :=
            if s.options.disablePan then st
            else { st with offsetX := st.initialOffsetX + (midX - cache.initialMidX) / newScale,
                           offsetY := st.initialOffsetY + (midY - cache.initialMidY) / newScale }
          let st2 := { st1 with scale := newScale }
          applyTransform { s with states := setKey s.states e st2 } e st2
      | _ => s

/-- Embeds `handleTouchEnd` (lines 286-296): when the scale sits outside the zoom
bounds, start the snap-back animation — whose first, synchronous frame runs
at progress 0 and re-applies the unchanged transform; the later frames are
asynchronous and outside this event-step model.  The touch cache is reset
unconditionally. -/
def pzHandleTouchEnd (s : PZState) (e : Nat) (st : GState) : PZState :=
  let s1 :=
    if st.scale < s.options.minZoom then applyTransform s e st
    else if s.options.maxZoom < st.scale then applyTransform s e st
    else s
  { s1 with touchCache := none }

/-- Embeds `handleWheel` (lines 302-332): delta = −deltaY × speedFactor; newScale =
clamp(scale × (1 + delta), minZoom, maxZoom); when panning is enabled the
offset is recomputed around the cursor; apply the transform. -/
def pzHandleWheel (env : PZEnv) (s : PZState) (e : Nat) (deltaY clientX clientY : ℚ)
    (st : GState) : PZState :=
  let delta := -deltaY * s.options.speedFactor
  let newScale := max s.options.minZoom (min s.options.maxZoom (st.scale * (1 + delta)))
  let st1 :=
    if s.options.disablePan then st
    else
      let mouseX := clientX - env.rectLeft e
      let mouseY := clientY - env.rectTop e
      { st with
        offsetX := mouseX / st.scale - mouseX / newScale * (st.scale / newScale) + st.offsetX,
        offsetY := mouseY / st.scale - mouseY / newScale * (st.scale / newScale) + st.offsetY }
  let st2 := { st1 with scale := newScale }
  applyTransform { s with states := setKey s.states e st2 } e st2

/-- Embeds `togglePresentationMode` (lines 373-390): flip the flag, reset scale to
1 and offset to (0,0), apply the transform, dispatch
`presentationmodechange` with the new flag. -/
def togglePresentationMode (s : PZState) (e : Nat) (st : GState) : PZState :=
  let st1 := { st with isPresentation := !st.isPresentation }
  let st2 := { st1 with scale := 1, offsetX := 0, offsetY := 0 }
  let s1 := { s with states := setKey s.states e st2 }
  let s2 := applyTransform s1 e st2
  { s2 with notifications := s2.notifications ++ [.presentation e st2.isPresentation] }

/-- Embeds `handleDoubleClick` (lines 347-352). -/
def pzHandleDoubleClick (s : PZState) (e : Nat) (st : GState) : PZState :=
  if !s.options.enablePresentation then s
  else togglePresentationMode s e st

/-- Embeds `_getElementState` (lines 396-399): `handlers && handlers.state` — the
`handlers` record stored at attach has no `state` field, so this returns
`undefined` (`none`) for every attached element. -/
def pzGetElementState (s : PZState) (e : Nat) : Option GState :=
  (lookupKey s.attachedHandlers e).bind (fun h => h.state?)

/-- Embeds `handleEscKey` (lines 358-367): for each attached element, look its
state up via `_getElementState` and force-exit presentation mode when
`state && state.isPresentation`. -/
def pzHandleEscKey (s : PZState) : PZState :=
  s.elements.foldl
    (fun acc e =>
      match pzGetElementState acc e with
      | none => acc
      | some st => if st.isPresentation then togglePresentationMode acc e st else acc)
    s

/-- Gesture-engine input events. -/
inductive PZEvent where
  | touchStart (target : Nat) (touches : List TouchPt)
  | touchMove (target : Nat) (touches : List TouchPt)
  | touchEnd (target : Nat)
  | wheel (target : Nat) (deltaY clientX clientY : ℚ)
  | dblclick (target : Nat)
  | escKey
  | attachOn (target : Nat)

/-- Dispatch one event: element-bound handlers run only for attached
elements (their listeners were installed at attach, closing over that
element's state); `dblclick` only when presentation was enabled at attach
time; `keydown` ESC at document level whenever the constructor registered
it. -/
def pzStep (env : PZEnv) (s : PZState) : PZEvent → PZState
  | .touchStart e ts =>
      match lookupKey s.states e with
      | none => s
      | some st => if ts.length < 2 then s else pzHandleTouchStart env s e ts st
  | .touchMove e ts =>
      match lookupKey s.states e with
      | none => s
      | some st => pzHandleTouchMove env s e ts st
  | .touchEnd e =>
      match lookupKey s.states e with
      | none => s
      | some st => pzHandleTouchEnd s e st
  | .wheel e deltaY cx cy =>
      match lookupKey s.states e with
      | none => s
      | some st => pzHandleWheel env s e deltaY cx cy st
  | .dblclick e =>
      match lookupKey s.states e with
      | none => s
      | some st => if s.options.enablePresentation then pzHandleDoubleClick s e st else s
  | .escKey => if s.escListener then pzHandleEscKey s else s
  | .attachOn e => pzAttachToElement env s e

def pzRun (env : PZEnv) (s : PZState) : List PZEvent → PZState
  | [] => s
  | ev :: rest => pzRun env (pzStep env s ev) rest

/-- Concrete host for the gesture scenarios: containers at the origin with
one child each. -/
def pzEnv1 : PZEnv :=
  { rectLeft := fun _ => 0, rectTop := fun _ => 0, childCount := fun _ => 1, sqrtQ := sqrtQ0 }

/-- Host whose containers have no children (for the C8 scenario). -/
def pzEnv0 : PZEnv :=
  { rectLeft := fun _ => 0, rectTop := fun _ => 0, childCount := fun _ => 0, sqrtQ := sqrtQ0 }

/-- The C5 pinch scenario: attach, two fingers down at distance 100. -/
def c5start : List PZEvent := [.attachOn 1, .touchStart 1 [⟨5, 0, 0⟩, ⟨6, 100, 0⟩]]

/-- The C5 pinch baseline state: container 1 attached, two fingers down at
(0,0) and (100,0) — cached distance 100, midpoint (50,0). -/
def c5mid : PZState := pzRun pzEnv1 (initPZ defaultPZOptions) c5start

/-- The cache `handleTouchStart` builds in the C5 scenario. -/
def c5cache : TouchCache := ⟨⟨5, 0, 0⟩, ⟨6, 100, 0⟩, 100, 50, 0⟩

/-- Container 1 attached, fresh state. -/
def c6mid : PZState := pzRun pzEnv1 (initPZ defaultPZOptions) [.attachOn 1]

/-- Container 1 attached and switched into presentation mode by
double-click. -/
def c7mid : PZState := pzRun pzEnv1 (initPZ defaultPZOptions) [.attachOn 1, .dblclick 1]

/-- Attach on a childless container. -/
def c8run : PZState := pzRun pzEnv0 (initPZ defaultPZOptions) [.attachOn 1]

end PinchZoomSpec

namespace VectorPenSpec

theorem quadSegs_length (l : List Pt) : (quadSegs l).length = l.length - 1 := by
  induction l with
  | nil => simp [quadSegs]
  | cons p rest ih =>
      cases rest with
      | nil => simp [quadSegs]
      | cons q rest' =>
          simp only [quadSegs, List.length_cons] at ih ⊢
          omega

theorem quadSegs_getElem? (l : List Pt) (i : Nat) (pi pj : Pt)
    (hi : l[i]? = some pi) (hj : l[i + 1]? = some pj) :
    (quadSegs l)[i]? = some (PathCmd.quad pi (midPt pi pj)) := by
  induction l generalizing i with
  | nil => simp at hi
  | cons p rest ih =>
      cases rest with
      | nil =>
          cases i with
          | zero => simp at hj
          | succ n => simp at hj
      | cons q rest' =>
          cases i with
          | zero =>
              simp only [List.getElem?_cons_zero, Option.some.injEq] at hi
              simp only [List.getElem?_cons_succ, List.getElem?_cons_zero,
                Option.some.injEq] at hj
              subst hi; subst hj
              simp [quadSegs]
          | succ n =>
              simp only [List.getElem?_cons_succ] at hi hj
              simpa [quadSegs] using ih n hi (by simpa using hj)

theorem generatePathData_eq (p q : Pt) (rest : List Pt) :
    generatePathData (p :: q :: rest) =
      PathCmd.move p ::
        (quadSegs (q :: rest) ++ [PathCmd.line ((q :: rest).getLast (List.cons_ne_nil q rest))]) :=
  rfl

theorem generatePathData_head? (ps : List Pt) (h : 2 ≤ ps.length) :
    (generatePathData ps).head? = ps.head?.map PathCmd.move := by
  match ps with
  | [] => simp at h
  | [_] => simp at h
  | p :: q :: rest => simp [generatePathData_eq]

theorem generatePathData_getLast? (ps : List Pt) (h : 2 ≤ ps.length) :
    (generatePathData ps).getLast? = ps.getLast?.map PathCmd.line := by
  match ps with
  | [] => simp at h
  | [_] => simp at h
  | p :: q :: rest =>
      rw [generatePathData_eq, ← List.cons_append, List.getLast?_concat]
      rw [List.getLast?_cons_cons,
        List.getLast?_eq_getLast (q :: rest) (List.cons_ne_nil q rest)]
      simp

/-- C3: for every point sequence of length at least 2, `_generatePathData`
emits as first command a move targeting exactly `P[0]`; at each interior
index `1 ≤ i ≤ n-2` exactly one quadratic command with control point `P[i]`
and endpoint the midpoint of `P[i]` and `P[i+1]`; and as last command a
straight line targeting exactly `P[n-1]`.  (Being a Lean function of the
point list alone, it is deterministic and pure.) -/
theorem C3_path_smoothing (ps : List Pt) (h : 2 ≤ ps.length) :
    (generatePathData ps).head? = ps.head?.map PathCmd.move ∧
    (∀ i pi pj, 1 ≤ i → i ≤ ps.length - 2 → ps[i]? = some pi → ps[i + 1]? = some pj →
      (generatePathData ps)[i]? = some (PathCmd.quad pi (midPt pi pj))) ∧
    (generatePathData ps).getLast? = ps.getLast?.map PathCmd.line := by
  refine ⟨generatePathData_head? ps h, ?_, generatePathData_getLast? ps h⟩
  intro i pi pj h1 h2 hpi hpj
  match ps, h with
  | p :: q :: rest, _ =>
      rw [generatePathData_eq]
      obtain ⟨j, rfl⟩ : ∃ j, i = j + 1 := ⟨i - 1, by omega⟩
      have hlen : (quadSegs (q :: rest)).length = rest.length := by
        rw [quadSegs_length]; simp
      have hjlt : j < (quadSegs (q :: rest)).length := by
        simp only [List.length_cons] at h2; omega
      rw [List.getElem?_cons_succ, List.getElem?_append, if_pos hjlt]
      refine quadSegs_getElem? (q :: rest) j pi pj ?_ ?_
      · simpa using hpi
      · simpa using hpj

theorem C3_path_smoothing_witness :
    2 ≤ ([⟨0, 0⟩, ⟨2, 0⟩, ⟨4, 2⟩] : List Pt).length ∧
    ((generatePathData [⟨0, 0⟩, ⟨2, 0⟩, ⟨4, 2⟩]).head? =
        ([⟨0, 0⟩, ⟨2, 0⟩, ⟨4, 2⟩] : List Pt).head?.map PathCmd.move ∧
      (∀ i pi pj, 1 ≤ i → i ≤ ([⟨0, 0⟩, ⟨2, 0⟩, ⟨4, 2⟩] : List Pt).length - 2 →
        ([⟨0, 0⟩, ⟨2, 0⟩, ⟨4, 2⟩] : List Pt)[i]? = some pi →
        ([⟨0, 0⟩, ⟨2, 0⟩, ⟨4, 2⟩] : List Pt)[i + 1]? = some pj →
        (generatePathData [⟨0, 0⟩, ⟨2, 0⟩, ⟨4, 2⟩])[i]? =
          some (PathCmd.quad pi (midPt pi pj))) ∧
      (generatePathData [⟨0, 0⟩, ⟨2, 0⟩, ⟨4, 2⟩]).getLast? =
        ([⟨0, 0⟩, ⟨2, 0⟩, ⟨4, 2⟩] : List Pt).getLast?.map PathCmd.line) :=
  ⟨by decide, C3_path_smoothing [⟨0, 0⟩, ⟨2, 0⟩, ⟨4, 2⟩] (by decide)⟩

unseal Rat.add Rat.sub Rat.mul Rat.inv in
/-- C2: the scenario claims the committed record holds 3 points
(10,10),(15,10),(15,10).  In the code `handlePointerUp` commits the
accumulated points as they are — it never appends the pointer-up position —
so the record holds exactly the 2 points (10,10),(15,10). -/
theorem C2_three_points_refuted :
    lookupKey (vpRun envNamed (initVP defaultVPOptions) c2events).paths "board-1" =
      some [c2record] ∧
    c2record.points.length = 2 ∧ ¬ c2record.points.length = 3 :=
  ⟨by decide, by decide, by decide⟩

unseal Rat.add Rat.sub Rat.mul Rat.inv in
/-- C2 (amended): the scenario commits exactly one StrokeRecord; it contains
exactly the 2 points (10,10),(15,10) — the seeded down-position and the
appended move-position; pointer-up appends nothing — and its pathData starts
with `M 10 10`. -/
theorem C2_pen_scenario :
    lookupKey (vpRun envNamed (initVP defaultVPOptions) c2events).paths "board-1" =
      some [c2record] ∧
    c2record.points = [⟨10, 10⟩, ⟨15, 10⟩] ∧
    c2record.pathData.head? = some (PathCmd.move ⟨10, 10⟩) :=
  ⟨by decide, by decide, by decide⟩

unseal Rat.add Rat.sub Rat.mul Rat.inv in
/-- C4: the claim says a pointer-down from any other pointer, of any pointer
type, leaves `currentStrokePoints` unchanged.  `handlePointerDown` only
guards `touchCount > 1`, which stays 0 for mouse/pen pointers, so a second
mouse/pen pointer-down mid-stroke replaces the points and re-seats the owner
pointer: the accumulated points change from [(10,10)] to [(20,20)]. -/
theorem C4_second_pointer_down_mutates :
    c4Drawing.isDrawing = true ∧ c4Drawing.activePointerId = some 0 ∧
    c4Drawing.points = [⟨10, 10⟩] ∧ c4Drawing.touchCount = 0 ∧
    c4AfterSecondDown.points = [⟨20, 20⟩] ∧
    ¬ c4AfterSecondDown.points = c4Drawing.points ∧
    c4AfterSecondDown.activePointerId = some 7 ∧
    c4AfterSecondDown.isDrawing = true := by
  refine ⟨by decide, by decide, by decide, by decide, by decide, by decide, by decide, by decide⟩

/-- C4 (amended): while a stroke is in progress, a pointer-down arriving
while more than one touch is active is ignored outright (state unchanged),
and a `touchstart` reporting a second touch cancels the stroke — clearing
the accumulated points without committing anything — rather than starting a
concurrent stroke; only a second non-touch pointer-down (touch count ≤ 1)
restarts the stroke, replacing the points. -/
theorem C4_multitouch_exclusion (env : VPEnv) (s : VPState) (target pid : Nat)
    (cx cy : ℚ) (n ae : Nat) (hdraw : s.isDrawing = true)
    (hae : s.activeElement = some ae) (hn : 1 < n) :
    (1 < s.touchCount → handlePointerDown env s target pid cx cy = s) ∧
    ((vpHandleTouchStart s n).isDrawing = false ∧
     (vpHandleTouchStart s n).points = [] ∧
     (vpHandleTouchStart s n).paths = s.paths) := by
  constructor
  · intro htc
    unfold handlePointerDown
    rw [if_pos htc]
  · unfold vpHandleTouchStart cancelDrawing
    simp [hae, hdraw, hn]

theorem C4_multitouch_exclusion_witness :
    (c4Drawing.isDrawing = true ∧ c4Drawing.activeElement = some 1 ∧ 1 < 2) ∧
    ((1 < c4Drawing.touchCount → handlePointerDown envNamed c4Drawing 1 7 0 0 = c4Drawing) ∧
     ((vpHandleTouchStart c4Drawing 2).isDrawing = false ∧
      (vpHandleTouchStart c4Drawing 2).points = [] ∧
      (vpHandleTouchStart c4Drawing 2).paths = c4Drawing.paths)) := by
  refine ⟨⟨?_, ?_, by decide⟩, C4_multitouch_exclusion envNamed c4Drawing 1 7 0 0 2 1 ?_ ?_ (by decide)⟩
  · exact by decide
  · exact by decide
  · exact by decide
  · exact by decide

theorem vpRunAux_append (env : VPEnv) (s : VPState) (now : Nat) (l1 l2 : List VPEvent) :
    vpRunAux env s now (l1 ++ l2) =
      vpRunAux env (vpRunAux env s now l1) (now + l1.length) l2 := by
  induction l1 generalizing s now with
  | nil => rfl
  | cons e rest ih =>
      show vpRunAux env (vpStep env s now e) (now + 1) (rest ++ l2) = _
      rw [ih]
      congr 1
      simp [List.length_cons]
      omega

unseal Rat.add Rat.sub Rat.mul Rat.inv in
theorem c1stage1 : vpRunAux envNamed (initVP c1opts) 0 c1l1 = c1S5 := rfl

unseal Rat.add Rat.sub Rat.mul Rat.inv in
theorem c1stage2 : vpRunAux envNamed c1S5 5 c1l2 = c1S9 := rfl

unseal Rat.add Rat.sub Rat.mul Rat.inv in
/-- Claim C1: after the two eraser commits the render tree shows the
contract's structural part — each commit wraps the entire prior
drawing-group content in exactly one new group gated by a fresh, uniquely
identified mask (`eraser-mask-8`, `eraser-mask-11`) holding the erase path
at the eraser width — BUT each commit has also appended a pen-styled
width-50 `vector-pen-stroke` path along the erase trajectory inside the
wrap (`c1spur`): content the mask's width-10 hole cannot fully hide, so the
commit adds new visible content, contradicting the claim's "adding no new
visible content of its own". -/
theorem C1_eraser_commit_adds_pen_path :
    lookupKey (vpRun envNamed (initVP c1opts) c1events).doms 1 =
      some ⟨[⟨"eraser-mask-8", c1maskForest c1dE1⟩, ⟨"eraser-mask-11", c1maskForest c1dE2⟩],
        none,
        .cons (.groupN (some "eraser-mask-11")
          (.cons (.groupN (some "eraser-mask-8")
            (.cons c1penPath (.cons (c1spur c1dE1) .nil)))
            (.cons (c1spur c1dE2) .nil))) .nil⟩ ∧
    lookupKey (vpRun envNamed (initVP c1opts) c1events).paths "board-1" =
      some [⟨some Tool.pen, [PathCmd.move ⟨0, 0⟩, PathCmd.line ⟨60, 0⟩], [⟨0, 0⟩, ⟨60, 0⟩]⟩,
            ⟨some Tool.eraser, c1dE1, [⟨0, 0⟩, ⟨30, 0⟩]⟩,
            ⟨some Tool.eraser, c1dE2, [⟨0, 50⟩, ⟨30, 50⟩]⟩] := by
  have hsplit : vpRun envNamed (initVP c1opts) c1events = vpRunAux envNamed c1S9 9 c1l3 := by
    have he : c1events = c1l1 ++ (c1l2 ++ c1l3) := rfl
    have h5 : (0 : Nat) + c1l1.length = 5 := rfl
    have h9 : (5 : Nat) + c1l2.length = 9 := rfl
    unfold vpRun
    rw [he, vpRunAux_append, c1stage1, vpRunAux_append, h5, h9, c1stage2]
  rw [hsplit]
  exact ⟨rfl, rfl⟩

unseal Rat.add Rat.sub Rat.mul Rat.inv in
/-- C9: the claim says every interleaving of attach/detach/clear completes
without raising an error.  With id-less containers the storage keys are
index-derived; detaching container 1 shifts container 2 to index 0 while its
data stays under key `vector-pen-2`, so `_clearElement` on the still-attached
container 2 looks up `drawingGroups['vector-pen-1']`, gets `undefined`, and
throws a TypeError at `drawingGroup.lastChild`. -/
theorem C9_clear_after_detach_throws :
    c9mid.elements = [2] ∧ c9mid.errors = [] ∧
    c9final.errors = ["TypeError: undefined drawingGroup in _clearElement"] ∧
    ¬ c9final.errors = [] :=
  ⟨by decide, by decide, by decide, by decide⟩

theorem indexOfN_eq_none {l : List Nat} {e : Nat} (h : e ∉ l) : indexOfN l e = none := by
  induction l with
  | nil => rfl
  | cons x rest ih =>
      simp only [List.mem_cons, not_or] at h
      unfold indexOfN
      rw [if_neg (by omega), ih h.2]
      rfl

/-- C9 (amended): invoking `clear` or `detach` on a container that is
unattached or already detached (no `.vector-pen-layer` child, not in the
attached list) is a silent no-op: it returns with the whole state — every
other container's state included — unchanged and records no error. -/
theorem C9_detached_noop (env : VPEnv) (s : VPState) (e : Nat)
    (hel : e ∉ s.elements) (hdom : lookupKey s.doms e = none) :
    clearElement env s e = s ∧ detachFromElement env s e = s := by
  constructor
  · unfold clearElement
    rw [hdom]
  · unfold detachFromElement
    rw [indexOfN_eq_none hel]

theorem C9_detached_noop_witness :
    (5 ∉ c9mid.elements ∧ lookupKey c9mid.doms 5 = none) ∧
    (clearElement envAnon c9mid 5 = c9mid ∧ detachFromElement envAnon c9mid 5 = c9mid) :=
  ⟨⟨by decide, rfl⟩, C9_detached_noop envAnon c9mid 5 (by decide) rfl⟩

theorem lookupKey_mem {κ α : Type} [DecidableEq κ] {l : List (κ × α)} {k : κ} {v : α}
    (h : lookupKey l k = some v) : (k, v) ∈ l := by
  induction l with
  | nil => simp [lookupKey] at h
  | cons kv rest ih =>
      obtain ⟨a, b⟩ := kv
      unfold lookupKey at h
      try dsimp only
      by_cases hk : a = k
      · subst hk
        simp at h
        subst h
        exact List.mem_cons_self _ _
      · simp [hk] at h
        exact List.mem_cons_of_mem _ (ih h)

theorem mem_setKey {κ α : Type} [DecidableEq κ] {kv : κ × α} {l : List (κ × α)}
    {k : κ} {v : α} (h : kv ∈ setKey l k v) : kv = (k, v) ∨ kv ∈ l := by
  induction l with
  | nil => simpa [setKey] using h
  | cons kv0 rest ih =>
      obtain ⟨a, b⟩ := kv0
      unfold setKey at h
      try dsimp only
      by_cases hk : a = k
      · simp [hk] at h
        rcases h with h | h
        · exact Or.inl h
        · exact Or.inr (List.mem_cons_of_mem _ h)
      · simp [hk] at h
        rcases h with h | h
        · exact Or.inr (by simp [h])
        · rcases ih h with h' | h'
          · exact Or.inl h'
          · exact Or.inr (List.mem_cons_of_mem _ h')

theorem mem_delKey {κ α : Type} [DecidableEq κ] {kv : κ × α} {l : List (κ × α)}
    {k : κ} (h : kv ∈ delKey l k) : kv ∈ l := by
  induction l with
  | nil => simp [delKey] at h
  | cons kv0 rest ih =>
      obtain ⟨a, b⟩ := kv0
      unfold delKey at h
      try dsimp only
      by_cases hk : a = k
      · simp [hk] at h
        exact List.mem_cons_of_mem _ h
      · simp [hk] at h
        rcases h with h | h
        · simp [h]
        · exact List.mem_cons_of_mem _ (ih h)

/-- A freshly committed record is well-formed whenever at least 2 points
were accumulated. -/
theorem goodRecord_commit (tool : Option Tool) (pts : List Pt) (h : 2 ≤ pts.length) :
    goodRecord ⟨tool, generatePathData pts, pts⟩ := by
  match pts, h with
  | p :: q :: rest, _ =>
      refine ⟨by simp, ?_, ⟨p, ?_⟩⟩
      · rw [generatePathData_eq]; simp
      · rw [generatePathData_eq]; rfl

theorem cancelDrawing_paths (s : VPState) : (cancelDrawing s).paths = s.paths := by
  unfold cancelDrawing
  try dsimp only
  split
  · rfl
  · split <;> rfl

theorem vpHandleTouchStart_paths (s : VPState) (n : Nat) :
    (vpHandleTouchStart s n).paths = s.paths := by
  unfold vpHandleTouchStart
  try dsimp only
  split
  · rw [cancelDrawing_paths]
  · rfl

theorem vpHandleTouchCancel_paths (s : VPState) (n : Nat) :
    (vpHandleTouchCancel s n).paths = s.paths := by
  unfold vpHandleTouchCancel
  try dsimp only
  split
  · rw [cancelDrawing_paths]
  · rfl

theorem handlePointerDown_paths (env : VPEnv) (s : VPState) (target pid : Nat) (cx cy : ℚ) :
    (handlePointerDown env s target pid cx cy).paths = s.paths := by
  unfold handlePointerDown
  try dsimp only
  split
  · rfl
  · split <;> rfl

theorem updateStrokeEraser_paths (s : VPState) (ae h : Nat) :
    (updateStrokeEraser s ae h).paths = s.paths := by
  unfold updateStrokeEraser
  try dsimp only
  repeat' split
  all_goals rfl

theorem updateStroke_paths (env : VPEnv) (s : VPState) :
    (updateStroke env s).paths = s.paths := by
  unfold updateStroke
  try dsimp only
  repeat' split
  all_goals first
    | rfl
    | apply updateStrokeEraser_paths

theorem handlePointerMove_paths (env : VPEnv) (s : VPState) (pid : Nat) (cx cy : ℚ) :
    (handlePointerMove env s pid cx cy).paths = s.paths := by
  unfold handlePointerMove
  try dsimp only
  repeat' split
  all_goals first
    | rfl
    | apply cancelDrawing_paths
    | simp [updateStroke_paths]

theorem appendToDrawingGroup_paths (s : VPState) (h : Nat) (node : SvgNode) :
    (appendToDrawingGroup s h node).paths = s.paths := by
  unfold appendToDrawingGroup
  try dsimp only
  split <;> rfl

theorem eraserWrap_paths (s : VPState) (ae h now : Nat) :
    (eraserWrap s ae h now).paths = s.paths := by
  unfold eraserWrap
  try dsimp only
  repeat' split
  all_goals rfl

theorem pushRecord_pathsGood (s : VPState) (key : String) (rec : StrokeRecord)
    (hg : pathsListGood s.paths) (hrec : goodRecord rec) :
    pathsListGood (pushRecord s key rec).paths := by
  unfold pushRecord
  split
  · exact hg
  · next recs heq =>
      intro kv hkv r hr
      rcases mem_setKey hkv with h | h
      · cases h
        rcases List.mem_append.mp hr with h2 | h2
        · exact hg _ (lookupKey_mem heq) r h2
        · rcases List.mem_singleton.mp h2 with rfl
          exact hrec
      · exact hg kv h r hr

theorem removeTempPathFrom_paths (s : VPState) (ae : Nat) (cls : String) :
    (removeTempPathFrom s ae cls).paths = s.paths := by
  unfold removeTempPathFrom
  split <;> rfl

theorem finalizeStroke_pathsGood (env : VPEnv) (s : VPState) (now : Nat)
    (hlen : 2 ≤ s.points.length) (hg : pathsListGood s.paths) :
    pathsListGood (finalizeStroke env s now).paths := by
  unfold finalizeStroke
  try dsimp only
  repeat' split
  all_goals try exact hg
  all_goals
    rw [pathsListGood, removeTempPathFrom_paths, removeTempPathFrom_paths]
    apply pushRecord_pathsGood
    · first
      | (rw [eraserWrap_paths, appendToDrawingGroup_paths]; exact hg)
      | (rw [appendToDrawingGroup_paths]; exact hg)
    · exact goodRecord_commit s.activeTool s.points hlen

theorem handlePointerUp_pathsGood (env : VPEnv) (s : VPState) (pid now : Nat)
    (hg : pathsListGood s.paths) : pathsListGood (handlePointerUp env s pid now).paths := by
  unfold handlePointerUp
  try dsimp only
  split
  · exact hg
  · split
    · exact hg
    · split
      · exact hg
      · split
        · next hlen =>
            have h2 : 2 ≤ s.points.length := by omega
            simpa using finalizeStroke_pathsGood env s now h2 hg
        · simpa using hg

theorem vpActivateTool_paths (s : VPState) (t : Tool) :
    (vpActivateTool s t).paths = s.paths := by
  unfold vpActivateTool deactivateTool
  try dsimp only
  repeat' split
  all_goals rfl

theorem attachToElement_pathsGood (env : VPEnv) (s : VPState) (e : Nat)
    (hg : pathsListGood s.paths) : pathsListGood (attachToElement env s e).paths := by
  unfold attachToElement
  try dsimp only
  split
  · exact hg
  · intro kv hkv r hr
    rcases mem_setKey hkv with h | h
    · subst h; simp at hr
    · exact hg kv h r hr

theorem detachFromElement_pathsGood (env : VPEnv) (s : VPState) (e : Nat)
    (hg : pathsListGood s.paths) : pathsListGood (detachFromElement env s e).paths := by
  unfold detachFromElement
  try dsimp only
  split
  · exact hg
  · intro kv hkv r hr
    exact hg kv (mem_delKey hkv) r hr

theorem clearElement_pathsGood (env : VPEnv) (s : VPState) (e : Nat)
    (hg : pathsListGood s.paths) : pathsListGood (clearElement env s e).paths := by
  unfold clearElement
  try dsimp only
  repeat' split
  all_goals first
    | exact hg
    | (intro kv hkv r hr
       rcases mem_setKey hkv with h | h
       · cases h
         simp at hr
       · exact hg kv h r hr)

theorem vpStep_pathsGood (env : VPEnv) (s : VPState) (now : Nat) (ev : VPEvent)
    (hg : pathsListGood s.paths) : pathsListGood (vpStep env s now ev).paths := by
  cases ev with
  | pointerDown e pid cx cy =>
      unfold vpStep
      try dsimp only
      split
      · rw [handlePointerDown_paths]; exact hg
      · exact hg
  | pointerMove e pid cx cy =>
      unfold vpStep
      try dsimp only
      split
      · rw [handlePointerMove_paths]; exact hg
      · exact hg
  | pointerUp e pid =>
      unfold vpStep
      try dsimp only
      split
      · exact handlePointerUp_pathsGood env s pid now hg
      · exact hg
  | touchStart e n =>
      unfold vpStep
      try dsimp only
      split
      · rw [vpHandleTouchStart_paths]; exact hg
      · exact hg
  | touchEnd e n =>
      unfold vpStep
      try dsimp only
      split
      · exact hg
      · exact hg
  | touchCancel e n =>
      unfold vpStep
      try dsimp only
      split
      · rw [vpHandleTouchCancel_paths]; exact hg
      · exact hg
  | toolClick t =>
      unfold vpStep
      try dsimp only
      rw [vpActivateTool_paths]; exact hg
  | clearOn e => exact clearElement_pathsGood env s e hg
  | attachOn e => exact attachToElement_pathsGood env s e hg
  | detachOn e => exact detachFromElement_pathsGood env s e hg

theorem vpRunAux_pathsGood (env : VPEnv) (evs : List VPEvent) :
    ∀ (s : VPState) (now : Nat), pathsListGood s.paths →
      pathsListGood (vpRunAux env s now evs).paths := by
  induction evs with
  | nil => intro s now hg; exact hg
  | cons ev rest ih =>
      intro s now hg
      exact ih (vpStep env s now ev) (now + 1) (vpStep_pathsGood env s now ev hg)

unseal Rat.add Rat.sub Rat.mul Rat.inv in
/-- Claim C10: every StrokeRecord ever stored in a container's path
collection — over any event sequence from a fresh instance — has at least
2 points and a non-empty pathData whose first command is a move (the string
begins with `M `): pointer-up commits only when more than one point was
accumulated, and the push stores `_generatePathData` of those points. -/
theorem C10_committed_records (env : VPEnv) (opts : VPOptions) (evs : List VPEvent)
    (key : String) (recs : List StrokeRecord)
    (h : lookupKey (vpRun env (initVP opts) evs).paths key = some recs) :
    ∀ r ∈ recs, 2 ≤ r.points.length ∧ r.pathData ≠ [] ∧
      ∃ p, r.pathData.head? = some (PathCmd.move p) := by
  have hg : pathsListGood (vpRun env (initVP opts) evs).paths := by
    apply vpRunAux_pathsGood
    intro kv hkv
    simp [initVP] at hkv
  intro r hr
  exact hg (key, recs) (lookupKey_mem h) r hr

unseal Rat.add Rat.sub Rat.mul Rat.inv in
theorem C10_committed_records_witness :
    lookupKey (vpRun envNamed (initVP defaultVPOptions) c2events).paths "board-1" =
      some [c2record] ∧
    (∀ r ∈ [c2record], 2 ≤ r.points.length ∧ r.pathData ≠ [] ∧
      ∃ p, r.pathData.head? = some (PathCmd.move p)) :=
  ⟨by decide,
   C10_committed_records envNamed defaultVPOptions c2events "board-1" [c2record] (by decide)⟩

end VectorPenSpec

namespace PinchZoomSpec

open VectorPenSpec (lookupKey setKey sqrtQ0 jsOrQ)

/-! ### Gesture-engine theorems (claims C5-C8) -/

theorem lookupKey_setKey_self {κ α : Type} [DecidableEq κ] (l : List (κ × α)) (k : κ) (v : α) :
    lookupKey (setKey l k v) k = some v := by
  induction l with
  | nil => simp [setKey, lookupKey]
  | cons kv rest ih =>
      unfold setKey
      by_cases hk : kv.1 = k
      · simp [hk, lookupKey]
      · simp [hk, lookupKey, ih]

theorem applyTransform_states (s : PZState) (e : Nat) (st : GState) :
    (applyTransform s e st).states = s.states := by
  unfold applyTransform
  split <;> rfl

theorem matchLoop_fst_none (env : PZEnv) (e : Nat) (cache : TouchCache)
    (ts : List TouchPt) (h : ∀ t ∈ ts, t.identifier ≠ cache.touch1.id) :
    ∀ acc : Option (ℚ × ℚ) × Option (ℚ × ℚ), acc.1 = none →
      (matchLoop env e cache ts acc).1 = none := by
  induction ts with
  | nil => intro acc hacc; exact hacc
  | cons t rest ih =>
      intro acc hacc
      unfold matchLoop
      try dsimp only
      rw [if_neg (h t (List.mem_cons_self t rest))]
      refine ih (fun u hu => h u (List.mem_cons_of_mem t hu)) _ ?_
      split <;> simpa using hacc

theorem matchLoop_snd_none (env : PZEnv) (e : Nat) (cache : TouchCache)
    (ts : List TouchPt) (h : ∀ t ∈ ts, t.identifier ≠ cache.touch2.id) :
    ∀ acc : Option (ℚ × ℚ) × Option (ℚ × ℚ), acc.2 = none →
      (matchLoop env e cache ts acc).2 = none := by
  induction ts with
  | nil => intro acc hacc; exact hacc
  | cons t rest ih =>
      intro acc hacc
      unfold matchLoop
      try dsimp only
      refine ih (fun u hu => h u (List.mem_cons_of_mem t hu)) _ ?_
      split
      · simpa using hacc
      · rw [if_neg (h t (List.mem_cons_self t rest))]
        simpa using hacc

unseal Rat.add Rat.sub Rat.mul Rat.inv in
/-- Claim C5: during an active pinch, a touch-move whose touches match both
cached identities sets the scale to clamp(initialScale × currentDistance /
initialDistance, minZoom, maxZoom) and, with panning enabled, the offset to
initialOffset + (currentMidpoint − initialMidpoint) / newScale; an event in
which either cached identity is absent changes nothing; and the scenario
pinch from distance 100 to 200 at baseline scale 1 under default options
yields scale 2 = min(2, maxZoom). -/
theorem C5_pinch_move (env : PZEnv) (s : PZState) (e : Nat) (cache : TouchCache)
    (st : GState) (t1 t2 : TouchPt)
    (hc : s.touchCache = some cache)
    (hst : lookupKey s.states e = some st)
    (h1 : t1.identifier = cache.touch1.id)
    (h2 : t2.identifier = cache.touch2.id)
    (h12 : cache.touch1.id ≠ cache.touch2.id) :
    (∃ st2 : GState,
      lookupKey (pzStep env s (.touchMove e [t1, t2])).states e = some st2 ∧
      st2.scale = max s.options.minZoom (min s.options.maxZoom
        (st.initialScale *
          (pzDistance env (t1.clientX - env.rectLeft e) (t1.clientY - env.rectTop e)
              (t2.clientX - env.rectLeft e) (t2.clientY - env.rectTop e) /
            cache.initialDistance))) ∧
      (s.options.disablePan = false →
        st2.offsetX = st.initialOffsetX +
          (((t1.clientX - env.rectLeft e) + (t2.clientX - env.rectLeft e)) / 2 -
            cache.initialMidX) / st2.scale ∧
        st2.offsetY = st.initialOffsetY +
          (((t1.clientY - env.rectTop e) + (t2.clientY - env.rectTop e)) / 2 -
            cache.initialMidY) / st2.scale)) ∧
    (∀ ts : List TouchPt, (∀ t ∈ ts, t.identifier ≠ cache.touch1.id) →
      pzStep env s (.touchMove e ts) = s) ∧
    (∀ ts : List TouchPt, (∀ t ∈ ts, t.identifier ≠ cache.touch2.id) →
      pzStep env s (.touchMove e ts) = s) ∧
    (lookupKey (pzRun pzEnv1 (initPZ defaultPZOptions)
        (c5start ++ [.touchMove 1 [⟨5, 0, 0⟩, ⟨6, 200, 0⟩]])).states 1).map
      (fun r => r.scale) = some 2 := by
  have h2ne : t2.identifier ≠ cache.touch1.id := by
    rw [h2]; exact fun hh => h12 hh.symm
  refine ⟨?_, ?_, ?_, by decide⟩
  · unfold pzStep
    try dsimp only
    rw [hst]
    try dsimp only
    unfold pzHandleTouchMove
    rw [if_neg (by simp), hc]
    try dsimp only
    have hm : matchTouches env e cache [t1, t2] =
        (some (t1.clientX - env.rectLeft e, t1.clientY - env.rectTop e),
         some (t2.clientX - env.rectLeft e, t2.clientY - env.rectTop e)) := by
      simp [matchTouches, matchLoop, h1, h2ne, h2, Ne.symm h12]
    rw [hm]
    try dsimp only
    simp only [applyTransform_states, lookupKey_setKey_self]
    refine ⟨_, rfl, rfl, ?_⟩
    intro hpan
    constructor <;> simp [hpan]
  · intro ts hne
    unfold pzStep
    try dsimp only
    rw [hst]
    try dsimp only
    unfold pzHandleTouchMove
    by_cases hlen : ts.length < 2
    · rw [if_pos hlen]
    · rw [if_neg hlen, hc]
      try dsimp only
      rcases hmt : matchTouches env e cache ts with ⟨o1, o2⟩
      have hmt' : matchLoop env e cache ts (none, none) = (o1, o2) := hmt
      have ho : o1 = none := by
        have hh := matchLoop_fst_none env e cache ts hne (none, none) rfl
        rw [hmt'] at hh
        exact hh
      subst ho
      cases o2 <;> rfl
  · intro ts hne
    unfold pzStep
    try dsimp only
    rw [hst]
    try dsimp only
    unfold pzHandleTouchMove
    by_cases hlen : ts.length < 2
    · rw [if_pos hlen]
    · rw [if_neg hlen, hc]
      try dsimp only
      rcases hmt : matchTouches env e cache ts with ⟨o1, o2⟩
      have hmt' : matchLoop env e cache ts (none, none) = (o1, o2) := hmt
      have ho : o2 = none := by
        have hh := matchLoop_snd_none env e cache ts hne (none, none) rfl
        rw [hmt'] at hh
        exact hh
      subst ho
      cases o1 <;> rfl

unseal Rat.add Rat.sub Rat.mul Rat.inv in
theorem C5_pinch_move_witness :
    (c5mid.touchCache = some c5cache ∧
     lookupKey c5mid.states 1 = some initGState ∧
     (⟨5, 0, 0⟩ : TouchPt).identifier = c5cache.touch1.id ∧
     (⟨6, 200, 0⟩ : TouchPt).identifier = c5cache.touch2.id ∧
     c5cache.touch1.id ≠ c5cache.touch2.id) ∧
    ((∃ st2 : GState,
      lookupKey (pzStep pzEnv1 c5mid
          (.touchMove 1 [⟨5, 0, 0⟩, ⟨6, 200, 0⟩])).states 1 = some st2 ∧
      st2.scale = max c5mid.options.minZoom (min c5mid.options.maxZoom
        (initGState.initialScale *
          (pzDistance pzEnv1 ((⟨5, 0, 0⟩ : TouchPt).clientX - pzEnv1.rectLeft 1)
              ((⟨5, 0, 0⟩ : TouchPt).clientY - pzEnv1.rectTop 1)
              ((⟨6, 200, 0⟩ : TouchPt).clientX - pzEnv1.rectLeft 1)
              ((⟨6, 200, 0⟩ : TouchPt).clientY - pzEnv1.rectTop 1) /
            c5cache.initialDistance))) ∧
      (c5mid.options.disablePan = false →
        st2.offsetX = initGState.initialOffsetX +
          ((((⟨5, 0, 0⟩ : TouchPt).clientX - pzEnv1.rectLeft 1) +
              ((⟨6, 200, 0⟩ : TouchPt).clientX - pzEnv1.rectLeft 1)) / 2 -
            c5cache.initialMidX) / st2.scale ∧
        st2.offsetY = initGState.initialOffsetY +
          ((((⟨5, 0, 0⟩ : TouchPt).clientY - pzEnv1.rectTop 1) +
              ((⟨6, 200, 0⟩ : TouchPt).clientY - pzEnv1.rectTop 1)) / 2 -
            c5cache.initialMidY) / st2.scale)) ∧
    (∀ ts : List TouchPt, (∀ t ∈ ts, t.identifier ≠ c5cache.touch1.id) →
      pzStep pzEnv1 c5mid (.touchMove 1 ts) = c5mid) ∧
    (∀ ts : List TouchPt, (∀ t ∈ ts, t.identifier ≠ c5cache.touch2.id) →
      pzStep pzEnv1 c5mid (.touchMove 1 ts) = c5mid) ∧
    (lookupKey (pzRun pzEnv1 (initPZ defaultPZOptions)
        (c5start ++ [.touchMove 1 [⟨5, 0, 0⟩, ⟨6, 200, 0⟩]])).states 1).map
      (fun r => r.scale) = some 2) :=
  ⟨⟨by decide, by decide, by decide, by decide, by decide⟩,
   C5_pinch_move pzEnv1 c5mid 1 c5cache initGState ⟨5, 0, 0⟩ ⟨6, 200, 0⟩
     (by decide) (by decide) (by decide) (by decide) (by decide)⟩

unseal Rat.add Rat.sub Rat.mul Rat.inv in
/-- Claim C6: every wheel event updates the scale multiplicatively —
newScale = clamp(oldScale × (1 + (−deltaY × speedFactor)), minZoom,
maxZoom) — and the scenario wheel event with deltaY = −100, default
speedFactor 0.002 at scale 1 yields scale 6/5 = min(maxZoom, 1.2). -/
theorem C6_wheel_scale (env : PZEnv) (s : PZState) (e : Nat) (deltaY cx cy : ℚ)
    (st : GState) (hst : lookupKey s.states e = some st) :
    (lookupKey (pzStep env s (.wheel e deltaY cx cy)).states e).map (fun r => r.scale) =
      some (max s.options.minZoom (min s.options.maxZoom
        (st.scale * (1 + -deltaY * s.options.speedFactor)))) ∧
    (lookupKey (pzRun pzEnv1 (initPZ defaultPZOptions)
        [.attachOn 1, .wheel 1 (-100) 0 0]).states 1).map
      (fun r => r.scale) = some (6 / 5) := by
  refine ⟨?_, by decide⟩
  unfold pzStep
  try dsimp only
  rw [hst]
  try dsimp only
  unfold pzHandleWheel
  try dsimp only
  simp only [applyTransform_states, lookupKey_setKey_self, Option.map_some]
  rfl

unseal Rat.add Rat.sub Rat.mul Rat.inv in
theorem C6_wheel_scale_witness :
    lookupKey c6mid.states 1 = some initGState ∧
    ((lookupKey (pzStep pzEnv1 c6mid (.wheel 1 (-100) 0 0)).states 1).map (fun r => r.scale) =
      some (max c6mid.options.minZoom (min c6mid.options.maxZoom
        (initGState.scale * (1 + -(-100) * c6mid.options.speedFactor)))) ∧
    (lookupKey (pzRun pzEnv1 (initPZ defaultPZOptions)
        [.attachOn 1, .wheel 1 (-100) 0 0]).states 1).map
      (fun r => r.scale) = some (6 / 5)) :=
  ⟨by decide, C6_wheel_scale pzEnv1 c6mid 1 (-100) 0 0 initGState (by decide)⟩

unseal Rat.add Rat.sub Rat.mul Rat.inv in
/-- Claim C7: the claim says ESC force-exits presentation mode for every
container with `isPresentation = true`.  In the code `_getElementState`
reads `handlers.state`, but `_attachToElement` never stores a `state` field
in the handlers record, so it returns `undefined` and `handleEscKey` skips
every container: after double-click enters presentation mode, the ESC
keydown changes nothing — `isPresentation` stays true, no reset, no
notification. -/
theorem C7_escape_does_nothing :
    (lookupKey c7mid.states 1).map (fun st => st.isPresentation) = some true ∧
    pzGetElementState c7mid 1 = none ∧
    pzStep pzEnv1 c7mid .escKey = c7mid :=
  ⟨by decide, rfl, rfl⟩

/-- Claim C8: the claim says attach on a childless container warns but
still proceeds.  In the code `_attachToElement` warns and RETURNS — the
container is not attached: no entry in `elements`, no state, no handlers. -/
theorem C8_attach_childless_not_attached :
    c8run.elements = [] ∧ lookupKey c8run.states 1 = none ∧
    lookupKey c8run.attachedHandlers 1 = none ∧
    c8run.warnings = ["PinchZoom: Target element has no children to zoom"] :=
  ⟨by decide, rfl, rfl, by decide⟩

/-- Claim C8 (amended): attach on a not-yet-attached container with no
children logs the warning and aborts: the call returns normally (not
fatal), but nothing is attached — the only state change is the appended
warning. -/
theorem C8_attach_childless_warns (env : PZEnv) (s : PZState) (e : Nat)
    (hchild : env.childCount e = 0) (hnot : e ∉ s.elements) :
    pzAttachToElement env s e =
      { s with warnings := s.warnings ++
          ["PinchZoom: Target element has no children to zoom"] } := by
  unfold pzAttachToElement
  simp [hnot, hchild]

theorem C8_attach_childless_warns_witness :
    (pzEnv0.childCount 1 = 0 ∧ 1 ∉ (initPZ defaultPZOptions).elements) ∧
    pzAttachToElement pzEnv0 (initPZ defaultPZOptions) 1 =
      { (initPZ defaultPZOptions) with warnings := (initPZ defaultPZOptions).warnings ++
          ["PinchZoom: Target element has no children to zoom"] } :=
  ⟨⟨rfl, by decide⟩, C8_attach_childless_warns pzEnv0 (initPZ defaultPZOptions) 1 rfl (by decide)⟩

end PinchZoomSpec
